import Mathlib

set_option maxRecDepth 4096

/-!
Verification of `scripts/download_everyayah.py` (EveryAyah bulk audio
downloader).  Each Python function that the claims touch is embedded as a
Lean definition: `download_file` becomes a pure state machine over a small
filesystem model and an abstract transport, `generate_download_tasks`
becomes a pure list program, the worker counter updates become an
interleaving semantics at attribute load/store granularity, the main
orchestration loop becomes an event-trace function, and `main`'s branch
structure becomes an exit-code function.
-/

/- ===================== Single-Item Fetcher (`download_file`) ============ -/

/-- Constant `MIN_VALID_FILE_SIZE = 1024` from the script: minimum file size
to consider a file valid (1KB). -/
def MIN_VALID_FILE_SIZE : Nat := 1024

/-- The two filesystem locations `download_file` touches: the final
destination `output_path` and its temporary sibling `temp_path`
(`output_path.with_suffix('.tmp')`).  Each holds the size of the file
present there, or `none` when absent. -/
structure FS where
  dest : Option Nat
  temp : Option Nat
deriving DecidableEq, Repr

/-- Replace the temp-file slot of a filesystem state. -/
def FS.setTemp (fs : FS) (t : Option Nat) : FS := ⟨fs.dest, t⟩

/-- What one `session.get` attempt observes: a completed HTTP response with
a status code and a body size, a `requests.exceptions.Timeout`, a
`requests.exceptions.RequestException` raised by the call itself, or a
`RequestException` raised in the middle of streaming the (status-200) body
after `written` bytes were already written to the temp file. -/
inductive Response where
  | http (code : Nat) (bodySize : Nat)
  | timeout
  | reqError (msg : String)
  | midTransfer (written : Nat) (msg : String)
deriving DecidableEq, Repr

/-- Result of one `download_file` call: the returned triple
`(success, skipped, error)`, the final filesystem state, the number of
`session.get` calls performed, and the list of `time.sleep` delays in
order. -/
structure DLResult where
  success : Bool
  skipped : Bool
  error : Option String
  fs : FS
  attempts : Nat
  sleeps : List Nat
deriving DecidableEq, Repr

/-- The `for attempt in range(retries)` loop of `download_file`
(lines 298-342).  `fuel` counts the remaining loop iterations (the loop is
entered with `fuel = retries` and `attempt = 0`); `calls` and `sleeps`
accumulate the network calls made and the backoff delays slept so far.
Each branch mirrors the Python control flow, including the `finally`
block that unlinks the temp file on every exit from the `try` body that
is not the successful rename. -/
def dl_attempts (transport : Nat → Response) (retries : Nat) :
    Nat → Nat → FS → Nat → List Nat → DLResult
  | 0, _, fs, calls, sleeps =>
      -- loop exhausted without returning: `return (False, False, "Max retries exceeded")`
      ⟨false, false, some "Max retries exceeded", fs, calls, sleeps⟩
  | fuel + 1, attempt, fs, calls, sleeps =>
      match transport attempt with
      | Response.http code bodySize =>
          if code = 200 then
            -- body streamed into the temp file
            let fsW := fs.setTemp (some bodySize)
            if MIN_VALID_FILE_SIZE ≤ bodySize then
              -- `temp_path.rename(output_path); return (True, False, None)`
              ⟨true, false, none, ⟨some bodySize, none⟩, calls + 1, sleeps⟩
            else
              -- `temp_path.unlink(); return (False, False, "Downloaded file too small")`
              ⟨false, false, some "Downloaded file too small", fsW.setTemp none, calls + 1, sleeps⟩
          else if code = 404 then
            -- `return (False, False, "404 Not Found")`; `finally` unlinks a stale temp file
            ⟨false, false, some "404 Not Found", fs.setTemp none, calls + 1, sleeps⟩
          else
            if attempt < retries - 1 then
              -- `time.sleep(1 * (attempt + 1)); continue`; `finally` unlinks the temp file
              dl_attempts transport retries fuel (attempt + 1) (fs.setTemp none)
                (calls + 1) (sleeps ++ [1 * (attempt + 1)])
            else
              ⟨false, false, some ("HTTP " ++ toString code), fs.setTemp none, calls + 1, sleeps⟩
      | Response.timeout =>
          if attempt < retries - 1 then
            -- `time.sleep(2 * (attempt + 1)); continue`
            dl_attempts transport retries fuel (attempt + 1) (fs.setTemp none)
              (calls + 1) (sleeps ++ [2 * (attempt + 1)])
          else
            ⟨false, false, some "Timeout", fs.setTemp none, calls + 1, sleeps⟩
      | Response.reqError msg =>
          if attempt < retries - 1 then
            dl_attempts transport retries fuel (attempt + 1) (fs.setTemp none)
              (calls + 1) (sleeps ++ [2 * (attempt + 1)])
          else
            ⟨false, false, some msg, fs.setTemp none, calls + 1, sleeps⟩
      | Response.midTransfer written msg =>
          -- part of the body reached the temp file before the exception;
          -- the `finally` block then unlinks it
          let fsW := fs.setTemp (some written)
          if attempt < retries - 1 then
            dl_attempts transport retries fuel (attempt + 1) (fsW.setTemp none)
              (calls + 1) (sleeps ++ [2 * (attempt + 1)])
          else
            ⟨false, false, some msg, fsW.setTemp none, calls + 1, sleeps⟩

/-- Embedding of `download_file(url, output_path, session, retries, force)`
(lines 272-342).  The pre-loop part: if not forcing and the destination
exists with size `>= MIN_VALID_FILE_SIZE`, return `(True, True, None)`
without touching the network; if it exists undersized, unlink it first;
then run the attempt loop. -/
def download_file (transport : Nat → Response) (fs : FS) (retries : Nat)
    (force : Bool) : DLResult :=
  if force = false then
    match fs.dest with
    | some size =>
        if MIN_VALID_FILE_SIZE ≤ size then
          ⟨true, true, none, fs, 0, []⟩
        else
          dl_attempts transport retries retries 0 ⟨none, fs.temp⟩ 0 []
    | none => dl_attempts transport retries retries 0 fs 0 []
  else
    dl_attempts transport retries retries 0 fs 0 []

/-- A call proceeds past the skip check when forcing, or when no valid
(≥ threshold) file sits at the destination. -/
def proceedsToDownload (force : Bool) (fs : FS) : Prop :=
  force = true ∨ ∀ n, fs.dest = some n → n < MIN_VALID_FILE_SIZE

/-- A transport observation that the script treats as transient: a timeout
or a `RequestException` (at the call or mid-stream). -/
def transientResponse (r : Response) : Prop :=
  r = Response.timeout ∨ (∃ m, r = Response.reqError m) ∨
    ∃ w m, r = Response.midTransfer w m

/-- The error string that the handler of a transient response returns once
retries are exhausted. -/
def transientErrMsg : Response → Option String
  | Response.timeout => some "Timeout"
  | Response.reqError m => some m
  | Response.midTransfer _ m => some m
  | Response.http _ _ => none

/-- Invariant satisfied by every result of the attempt loop `dl_attempts`:
the loop never reports a skip, its error is `None` exactly on success, a
success leaves no temp file, and a failure leaves the destination slot as
the loop found it and (when at least one iteration ran) no temp file. -/
def dlInv (r : DLResult) (fs : FS) (fuel : Nat) : Prop :=
  r.skipped = false ∧
  (r.error = none ↔ r.success = true) ∧
  (r.success = true → r.fs.temp = none) ∧
  (r.success = false →
    r.fs.dest = fs.dest ∧ (r.fs.temp = none ∨ (fuel = 0 ∧ r.fs.temp = fs.temp)))

/- ===================== Task Catalog ===================================== -/

/-- One entry of the `RECITERS` table: folder, display name, style. -/
structure Reciter where
  folder : String
  name : String
  style : String
deriving DecidableEq, Repr

/-- The static `RECITERS` table of the script (44 entries, in order). -/
def RECITERS : List Reciter := [
  ⟨"Abdul_Basit_Murattal_192kbps", "Abdul Basit Abdul Samad", "Murattal"⟩,
  ⟨"Abdul_Basit_Mujawwad_128kbps", "Abdul Basit Abdul Samad", "Mujawwad"⟩,
  ⟨"Husary_128kbps", "Mahmoud Khalil Al-Hussary", "Murattal"⟩,
  ⟨"Husary_Mujawwad_64kbps", "Mahmoud Khalil Al-Hussary", "Mujawwad"⟩,
  ⟨"Minshawy_Murattal_128kbps", "Mohamed Siddiq Al-Minshawi", "Murattal"⟩,
  ⟨"Minshawy_Mujawwad_64kbps", "Mohamed Siddiq Al-Minshawi", "Mujawwad"⟩,
  ⟨"Ghamadi_40kbps", "Saad Al-Ghamdi", "Murattal"⟩,
  ⟨"MaherAlMuaiqly128kbps", "Maher Al-Muaiqly", "Murattal"⟩,
  ⟨"Muhammad_Ayyoub_128kbps", "Muhammad Ayyub", "Murattal"⟩,
  ⟨"Abu_Bakr_Ash-Shaatree_128kbps", "Abu Bakr Al-Shatri", "Murattal"⟩,
  ⟨"Hani_Rifai_192kbps", "Hani Ar-Rifai", "Murattal"⟩,
  ⟨"ahmed_ibn_ali_al_ajamy_128kbps", "Ahmed ibn Ali al-Ajamy", "Murattal"⟩,
  ⟨"Nasser_Alqatami_128kbps", "Nasser Al-Qatami", "Murattal"⟩,
  ⟨"Mohammad_al_Tablaway_128kbps", "Mohammad al-Tablaway", "Murattal"⟩,
  ⟨"Mustafa_Ismail_48kbps", "Mustafa Ismail", "Mujawwad"⟩,
  ⟨"Salaah_AbdulRahman_Bukhatir_128kbps", "Salaah AbdulRahman Bukhatir", "Murattal"⟩,
  ⟨"Muhsin_Al_Qasim_192kbps", "Muhsin Al-Qasim", "Murattal"⟩,
  ⟨"Abdullaah_3awwaad_Al-Juhaynee_128kbps", "Abdullah Awad Al-Juhani", "Murattal"⟩,
  ⟨"Salah_Al_Budair_128kbps", "Salah Al-Budair", "Murattal"⟩,
  ⟨"Abdullah_Matroud_128kbps", "Abdullah Matroud", "Murattal"⟩,
  ⟨"Ahmed_Neana_128kbps", "Ahmed Neana", "Murattal"⟩,
  ⟨"Muhammad_AbdulKareem_128kbps", "Muhammad AbdulKareem", "Murattal"⟩,
  ⟨"khalefa_al_tunaiji_64kbps", "Khalefa Al-Tunaiji", "Murattal"⟩,
  ⟨"mahmoud_ali_al_banna_32kbps", "Mahmoud Ali Al-Banna", "Mujawwad"⟩,
  ⟨"Khaalid_Abdullaah_al-Qahtaanee_192kbps", "Khalid Abdullah Al-Qahtani", "Murattal"⟩,
  ⟨"Yasser_Ad-Dussary_128kbps", "Yasser Ad-Dussary", "Murattal"⟩,
  ⟨"Ali_Hajjaj_AlSuesy_128kbps", "Ali Hajjaj Al-Suesy", "Murattal"⟩,
  ⟨"Sahl_Yassin_128kbps", "Sahl Yassin", "Murattal"⟩,
  ⟨"aziz_alili_128kbps", "Aziz Alili", "Murattal"⟩,
  ⟨"Yaser_Salamah_128kbps", "Yaser Salamah", "Murattal"⟩,
  ⟨"Akram_AlAlaqimy_128kbps", "Akram Al-Alaqimy", "Murattal"⟩,
  ⟨"Ali_Jaber_64kbps", "Ali Jaber", "Murattal"⟩,
  ⟨"Fares_Abbad_64kbps", "Fares Abbad", "Murattal"⟩,
  ⟨"Ayman_Sowaid_64kbps", "Ayman Sowaid", "Murattal"⟩,
  ⟨"Ibrahim_Akhdar_32kbps", "Ibrahim Al-Akhdar", "Murattal"⟩,
  ⟨"Parhizgar_48kbps", "Shahriar Parhizgar", "Murattal"⟩,
  ⟨"Saood_ash-Shuraym_128kbps", "Saud Ash-Shuraim", "Murattal"⟩,
  ⟨"Abdullah_Basfar_192kbps", "Abdullah Basfar", "Murattal"⟩,
  ⟨"Hudhaify_128kbps", "Ali Al-Hudhaify", "Murattal"⟩,
  ⟨"Muhammad_Jibreel_128kbps", "Muhammad Jibreel", "Murattal"⟩,
  ⟨"warsh/warsh_Abdul_Basit_128kbps", "Abdul Basit (Warsh)", "Warsh"⟩,
  ⟨"warsh/warsh_ibrahim_aldosary_128kbps", "Ibrahim Ad-Dosari (Warsh)", "Warsh"⟩,
  ⟨"Karim_Mansoori_40kbps", "Karim Mansoori", "Murattal"⟩,
  ⟨"warsh/warsh_yassin_al_jazaery_64kbps", "Yassin Al-Jazaery", "Warsh"⟩]

/-- The static `SURAH_AYAH_COUNTS` table of the script (114 entries). -/
def SURAH_AYAH_COUNTS : List Nat := [
  7, 286, 200, 176, 120, 165, 206, 75, 129, 109,
  123, 111, 43, 52, 99, 128, 111, 110, 98, 135,
  112, 78, 118, 64, 77, 227, 93, 88, 69, 60,
  34, 30, 73, 54, 45, 83, 182, 88, 75, 85,
  54, 53, 89, 59, 37, 35, 38, 29, 18, 45,
  60, 49, 62, 55, 78, 96, 29, 22, 24, 13,
  14, 11, 11, 18, 12, 12, 30, 52, 52, 44,
  28, 28, 20, 56, 40, 31, 50, 40, 46, 42,
  29, 19, 36, 25, 22, 17, 19, 26, 30, 20,
  15, 21, 11, 8, 8, 19, 5, 8, 8, 11,
  11, 8, 3, 9, 5, 4, 7, 3, 6, 3,
  5, 4, 5, 6]

/-- Constant `BASE_URL` of the script. -/
def BASE_URL : String := "https://everyayah.com/data"

/-- Decimal digit character, as produced by Python's `str` on a digit. -/
def dchar (n : Nat) : Char := Char.ofNat (48 + n)

/-- Decimal digit characters of `n`, most significant first, prepended to
`acc`: the embedding of Python's `str(n)` for natural numbers. -/
def natStrAux (n : Nat) (acc : List Char) : List Char :=
  if n < 10 then dchar n :: acc
  else natStrAux (n / 10) (dchar (n % 10) :: acc)
termination_by n
decreasing_by exact Nat.div_lt_self (by omega) (by omega)

/-- Python `str(n)` for a natural number `n`. -/
def natStr (n : Nat) : String := ⟨natStrAux n []⟩

/-- Python `s.zfill(w)` for a digit string: left-pad with the character 0
up to width `w`. -/
def zfill (w : Nat) (s : String) : String :=
  ⟨List.replicate (w - s.data.length) '0' ++ s.data⟩

/-- The canonical filename of the script:
`f"{str(surah).zfill(3)}{str(ayah).zfill(3)}.mp3"`. -/
def ayahFilename (surah ayah : Nat) : String :=
  zfill 3 (natStr surah) ++ zfill 3 (natStr ayah) ++ ".mp3"

/-- One element of the list built by `generate_download_tasks`: the tuple
`(url, output_path, reciter_name, surah, ayah)`.  Paths are modelled as
their POSIX strings. -/
structure DownloadTask where
  url : String
  output_path : String
  reciter_name : String
  surah : Nat
  ayah : Nat
deriving DecidableEq, Repr

/-- The task built for one `(reciter, surah, ayah)` triple, with
`url = BASE_URL/folder/filename` and
`output_path = output_dir/folder/filename`. -/
def mkTask (output_dir : String) (r : Reciter) (surah ayah : Nat) : DownloadTask :=
  ⟨BASE_URL ++ "/" ++ r.folder ++ "/" ++ ayahFilename surah ayah,
   output_dir ++ "/" ++ r.folder ++ "/" ++ ayahFilename surah ayah,
   r.name, surah, ayah⟩

/-- Embedding of `generate_download_tasks(reciters, output_dir)`
(lines 345-373): three nested loops (`for reciter`, `for surah_num in
range(1, 115)`, `for ayah_num in range(1, ayah_count + 1)`) appending one
task per iteration. -/
def generate_download_tasks (reciters : List Reciter) (output_dir : String) :
    List DownloadTask :=
  reciters.foldl (fun tasks reciter =>
    (List.range' 1 114).foldl (fun tasks surah_num =>
      (List.range' 1 (SURAH_AYAH_COUNTS.getD (surah_num - 1) 0)).foldl
        (fun tasks ayah_num => tasks ++ [mkTask output_dir reciter surah_num ayah_num])
        tasks)
      tasks)
    []

/-- The ordered `(surah, ayah)` enumeration: surahs 1..114 in order, and for
each, ayahs 1..count in order. -/
def surahAyahPairs : List (Nat × Nat) :=
  (List.range' 1 114).flatMap
    (fun s => (List.range' 1 (SURAH_AYAH_COUNTS.getD (s - 1) 0)).map (fun a => (s, a)))

/- ===================== Worker outcomes and shared counters ============= -/

/-- Outcome of one task, as classified by `download_worker` from the
`(success, skipped, error)` triple. -/
inductive Outcome where
  | downloadedNew
  | alreadyPresent
  | taskFailed (err : String)
deriving DecidableEq, Repr

/-- Number of `taskFailed` outcomes in a list. -/
def failedCount (outcomes : List Outcome) : Nat :=
  outcomes.countP (fun o => match o with | Outcome.taskFailed _ => true | _ => false)

/-- The mutable fields of `DownloadStats` that `download_worker` updates;
`failed_files` is tracked by its length. -/
structure WStats where
  downloaded : Nat
  skipped : Nat
  failed : Nat
  failed_files : Nat
deriving DecidableEq, Repr

/-- One of the three counters. -/
inductive StatField where
  | downloaded
  | skipped
  | failed
deriving DecidableEq, Repr

/-- Read one counter. -/
def WStats.read (st : WStats) : StatField → Nat
  | StatField.downloaded => st.downloaded
  | StatField.skipped => st.skipped
  | StatField.failed => st.failed

/-- Write one counter. -/
def WStats.write (st : WStats) : StatField → Nat → WStats
  | StatField.downloaded, v => ⟨v, st.skipped, st.failed, st.failed_files⟩
  | StatField.skipped, v => ⟨st.downloaded, v, st.failed, st.failed_files⟩
  | StatField.failed, v => ⟨st.downloaded, st.skipped, v, st.failed_files⟩

/-- Atomic steps of a worker updating the shared `DownloadStats`.  CPython
executes `stats.X += 1` as separate attribute-load and attribute-store
bytecodes, and the interpreter may switch threads between them, so the
load and the store are distinct atomic steps; `failed_files.append(...)`
is a single atomic list operation. -/
inductive WOp where
  | load (f : StatField)
  | store (f : StatField)
  | appendRec
deriving DecidableEq, Repr

/-- The sequence of shared-state operations `download_worker` performs for
one outcome (lines 381-395): `stats.skipped += 1`, `stats.downloaded += 1`,
or `stats.failed += 1` followed by `stats.failed_files.append(...)`. -/
def workerOps : Outcome → List WOp
  | Outcome.alreadyPresent => [WOp.load StatField.skipped, WOp.store StatField.skipped]
  | Outcome.downloadedNew => [WOp.load StatField.downloaded, WOp.store StatField.downloaded]
  | Outcome.taskFailed _ =>
      [WOp.load StatField.failed, WOp.store StatField.failed, WOp.appendRec]

/-- Effect of one atomic step on the shared stats and the thread's local
register (which holds the value read by the preceding load). -/
def stepWOp (st : WStats) (reg : Nat) : WOp → WStats × Nat
  | WOp.load f => (st, st.read f)
  | WOp.store f => (st.write f (reg + 1), reg)
  | WOp.appendRec => (⟨st.downloaded, st.skipped, st.failed, st.failed_files + 1⟩, reg)

/-- Interleaved execution of worker threads: `threads` holds each thread's
remaining operations and local register, and `sched` names which thread
takes the next atomic step (a finished or out-of-range thread id is a
no-op). -/
def raceExec : List Nat → List (List WOp × Nat) → WStats → WStats
  | [], _, st => st
  | i :: rest, threads, st =>
      match threads.getD i ([], 0) with
      | ([], _) => raceExec rest threads st
      | (op :: ops, reg) =>
          let sr := stepWOp st reg op
          raceExec rest (threads.set i (ops, sr.2)) sr.1

/-- Run one worker thread per outcome, interleaved according to `sched`,
starting from zeroed counters. -/
def runWorkers (outcomes : List Outcome) (sched : List Nat) : WStats :=
  raceExec sched (outcomes.map (fun o => (workerOps o, 0))) ⟨0, 0, 0, 0⟩

/- ===================== Orchestrator event trace ======================== -/

/-- File/console events of the post-dispatch part of `main`. -/
inductive MEvent where
  | progressPrint
  | checkpointSave
  | finalPrint
  | failedReport
  | manifestWrite
deriving DecidableEq, Repr

/-- The `as_completed` loop of `main` (lines 562-580): one completion per
element of `ts` (its wall-clock time); print progress when at least 2
seconds passed since `last_print_time` (initially 0), save the checkpoint
via `stats.save_progress` when at least 30 seconds passed since
`last_save_time` (initially the loop start time). -/
def loopEvents : List Nat → Nat → Nat → List MEvent
  | [], _, _ => []
  | t :: ts, lastPrint, lastSave =>
      (if 2 ≤ t - lastPrint then [MEvent.progressPrint] else []) ++
      (if 30 ≤ t - lastSave then [MEvent.checkpointSave] else []) ++
      loopEvents ts (if 2 ≤ t - lastPrint then t else lastPrint)
        (if 30 ≤ t - lastSave then t else lastSave)

/-- What `main` writes after the loop finishes (lines 582-625): the final
progress line, the `failed_downloads.json` report when `failed_files` is
non-empty, and the manifest.  `stats.save_progress` is not called here. -/
def endEvents (failedNonempty : Bool) : List MEvent :=
  [MEvent.finalPrint] ++
  (if failedNonempty then [MEvent.failedReport] else []) ++
  [MEvent.manifestWrite]

/-- Full event trace of a completed run: the dispatch loop (started at
wall-clock time `startTime`, with completions at times `ts`) followed by
the end-of-run reporting. -/
def orchestrate (startTime : Nat) (ts : List Nat) (failedNonempty : Bool) :
    List MEvent :=
  loopEvents ts 0 startTime ++ endEvents failedNonempty

/- ===================== Exit status of `main` =========================== -/

/-- The parsed command-line arguments of `main` that determine its control
flow; `reciters_filter` is the already-split comma list. -/
structure Args where
  list_reciters : Bool
  output : Option String
  reciters_filter : Option (List String)
  dry_run : Bool
  force : Bool
deriving DecidableEq, Repr

/-- The tail of `main` once a non-empty reciter list is selected
(lines 501-627): dry-run returns 0, a declined confirmation returns 0,
and a performed download run returns 0 exactly when `stats.failed == 0`,
else 1. -/
def mainAfterFilter (args : Args) (confirm : Bool) (outcomes : List Outcome) : Nat :=
  if args.dry_run = true then 0
  else if confirm = false then 0
  else if failedCount outcomes = 0 then 0 else 1

/-- The exit status of `main` (lines 400-631): `--list-reciters` returns 0;
a missing `--output` makes `argparse.parser.error` exit with status 2; an
empty `--reciters` selection returns 1; otherwise continue with the
selected reciters. -/
def mainExit (args : Args) (confirm : Bool) (outcomes : List Outcome) : Nat :=
  if args.list_reciters = true then 0
  else
    match args.output with
    | none => 2
    | some _ =>
        match args.reciters_filter with
        | some keys =>
            if RECITERS.filter (fun r => keys.contains r.folder) = [] then 1
            else mainAfterFilter args confirm outcomes
        | none => mainAfterFilter args confirm outcomes

/-- Every run of the attempt loop satisfies `dlInv`. -/
theorem dl_inv (transport : Nat → Response) (retries : Nat) :
    ∀ fuel attempt fs calls sleeps,
      dlInv (dl_attempts transport retries fuel attempt fs calls sleeps) fs fuel := by
  intro fuel
  induction fuel with
  | zero =>
      intro attempt fs calls sleeps
      refine ⟨rfl, by simp [dl_attempts], by simp [dl_attempts], ?_⟩
      intro _
      exact ⟨rfl, Or.inr ⟨rfl, rfl⟩⟩
  | succ n ih =>
      intro attempt fs calls sleeps
      simp only [dl_attempts]
      cases htr : transport attempt with
      | http code bodySize =>
          by_cases h200 : code = 200
          · by_cases hbig : MIN_VALID_FILE_SIZE ≤ bodySize
            · simp [h200, hbig, dlInv, FS.setTemp]
            · simp [h200, hbig, dlInv, FS.setTemp]
          · by_cases h404 : code = 404
            · simp [h200, h404, dlInv, FS.setTemp]
            · by_cases hlt : attempt < retries - 1
              · simp only [h200, h404, hlt, if_true, if_false, if_pos, if_neg]
                have := ih (attempt + 1) (fs.setTemp none) (calls + 1) (sleeps ++ [1 * (attempt + 1)])
                rcases this with ⟨h1, h2, h3, h4⟩
                refine ⟨h1, h2, h3, ?_⟩
                intro hs
                rcases h4 hs with ⟨hd, htemp⟩
                refine ⟨hd, ?_⟩
                rcases htemp with h | ⟨_, h⟩ <;> simp [FS.setTemp] at h ⊢ <;> simp [h]
              · simp [h200, h404, hlt, dlInv, FS.setTemp]
      | timeout =>
          by_cases hlt : attempt < retries - 1
          · simp only [hlt, if_true, if_false, if_pos, if_neg]
            have := ih (attempt + 1) (fs.setTemp none) (calls + 1) (sleeps ++ [2 * (attempt + 1)])
            rcases this with ⟨h1, h2, h3, h4⟩
            refine ⟨h1, h2, h3, ?_⟩
            intro hs
            rcases h4 hs with ⟨hd, htemp⟩
            refine ⟨hd, ?_⟩
            rcases htemp with h | ⟨_, h⟩ <;> simp [FS.setTemp] at h ⊢ <;> simp [h]
          · simp [hlt, dlInv, FS.setTemp]
      | reqError m =>
          by_cases hlt : attempt < retries - 1
          · simp only [hlt, if_true, if_false, if_pos, if_neg]
            have := ih (attempt + 1) (fs.setTemp none) (calls + 1) (sleeps ++ [2 * (attempt + 1)])
            rcases this with ⟨h1, h2, h3, h4⟩
            refine ⟨h1, h2, h3, ?_⟩
            intro hs
            rcases h4 hs with ⟨hd, htemp⟩
            refine ⟨hd, ?_⟩
            rcases htemp with h | ⟨_, h⟩ <;> simp [FS.setTemp] at h ⊢ <;> simp [h]
          · simp [hlt, dlInv, FS.setTemp]
      | midTransfer w m =>
          by_cases hlt : attempt < retries - 1
          · simp only [hlt, if_true, if_false, if_pos, if_neg]
            have := ih (attempt + 1) ((fs.setTemp (some w)).setTemp none) (calls + 1) (sleeps ++ [2 * (attempt + 1)])
            rcases this with ⟨h1, h2, h3, h4⟩
            refine ⟨h1, h2, h3, ?_⟩
            intro hs
            rcases h4 hs with ⟨hd, htemp⟩
            refine ⟨by simpa [FS.setTemp] using hd, ?_⟩
            rcases htemp with h | ⟨_, h⟩ <;> simp [FS.setTemp] at h ⊢ <;> simp [h]
          · simp [hlt, dlInv, FS.setTemp]

/-- When the skip check does not fire, `download_file` is the attempt loop
started at attempt 0 with full fuel on some initial filesystem state. -/
theorem download_file_proceeds (transport : Nat → Response) (fs : FS)
    (retries : Nat) (force : Bool) (hp : proceedsToDownload force fs) :
    ∃ fs0 : FS, download_file transport fs retries force =
      dl_attempts transport retries retries 0 fs0 0 [] := by
  rcases hp with hf | hd
  · subst hf
    exact ⟨fs, by simp [download_file]⟩
  · cases hforce : force with
    | true => exact ⟨fs, by simp [download_file]⟩
    | false =>
        cases hdest : fs.dest with
        | none => exact ⟨fs, by simp [download_file, hdest]⟩
        | some n =>
            have hn := hd n hdest
            exact ⟨⟨none, fs.temp⟩, by simp [download_file, hdest, Nat.not_le.mpr hn]⟩

/-- Three transient attempts at `retries = 3`: three network calls, backoff
sleeps of 2 and 4 seconds, and the last attempt's error message. -/
theorem transient_three (transport : Nat → Response) (fs0 : FS)
    (ht : ∀ i, transientResponse (transport i)) :
    dl_attempts transport 3 3 0 fs0 0 [] =
      ⟨false, false, transientErrMsg (transport 2),
        fs0.setTemp none, 3, [2, 4]⟩ := by
  rcases ht 0 with h0 | ⟨m0, h0⟩ | ⟨w0, m0, h0⟩ <;>
  rcases ht 1 with h1 | ⟨m1, h1⟩ | ⟨w1, m1, h1⟩ <;>
  rcases ht 2 with h2 | ⟨m2, h2⟩ | ⟨w2, m2, h2⟩ <;>
    simp [dl_attempts, h0, h1, h2, FS.setTemp, transientErrMsg]

/-- The attempt loop returns either a success `(True, False, None)` or a
failure `(False, False, some e)`. -/
theorem dl_shapes (transport : Nat → Response) (retries : Nat)
    (fuel attempt : Nat) (fs : FS) (calls : Nat) (sleeps : List Nat) :
    ((dl_attempts transport retries fuel attempt fs calls sleeps).success = true ∧
      (dl_attempts transport retries fuel attempt fs calls sleeps).skipped = false ∧
      (dl_attempts transport retries fuel attempt fs calls sleeps).error = none) ∨
    ((dl_attempts transport retries fuel attempt fs calls sleeps).success = false ∧
      (dl_attempts transport retries fuel attempt fs calls sleeps).skipped = false ∧
      ∃ e, (dl_attempts transport retries fuel attempt fs calls sleeps).error = some e) := by
  obtain ⟨hsk, hiff, -, -⟩ := dl_inv transport retries fuel attempt fs calls sleeps
  cases hsucc : (dl_attempts transport retries fuel attempt fs calls sleeps).success with
  | true => exact Or.inl ⟨rfl, hsk, hiff.mpr hsucc⟩
  | false =>
      refine Or.inr ⟨rfl, hsk, ?_⟩
      cases herr : (dl_attempts transport retries fuel attempt fs calls sleeps).error with
      | none => rw [hiff.mp herr] at hsucc; cases hsucc
      | some e => exact ⟨e, rfl⟩

/-- Claim C1: for every task run with force disabled, if the destination
file already exists with size at least 1024 bytes, `download_file` returns
the AlreadyPresent outcome `(True, True, None)` without performing any
network call (zero attempts, result independent of the transport); if the
destination exists with size below 1024 bytes, it is deleted and the
download proceeds, and the call is never reported as AlreadyPresent
(`skipped = False`). -/
theorem claim_c1 (transport : Nat → Response) (fs : FS) (retries size : Nat)
    (hd : fs.dest = some size) :
    (MIN_VALID_FILE_SIZE ≤ size →
      download_file transport fs retries false = ⟨true, true, none, fs, 0, []⟩) ∧
    (size < MIN_VALID_FILE_SIZE →
      download_file transport fs retries false =
        dl_attempts transport retries retries 0 ⟨none, fs.temp⟩ 0 [] ∧
      (download_file transport fs retries false).skipped = false) := by
  constructor
  · intro h
    simp [download_file, hd, h]
  · intro h
    have hne : ¬ MIN_VALID_FILE_SIZE ≤ size := Nat.not_le.mpr h
    have heq : download_file transport fs retries false =
        dl_attempts transport retries retries 0 ⟨none, fs.temp⟩ 0 [] := by
      simp [download_file, hd, hne]
    refine ⟨heq, ?_⟩
    rw [heq]
    exact (dl_inv transport retries retries 0 ⟨none, fs.temp⟩ 0 []).1

/-- Witness for C1 at a concrete 1024-byte destination file. -/
theorem claim_c1_witness :
    ((⟨some 1024, none⟩ : FS).dest = some 1024) ∧
    (MIN_VALID_FILE_SIZE ≤ 1024 →
      download_file (fun _ => Response.timeout) ⟨some 1024, none⟩ 3 false =
        ⟨true, true, none, ⟨some 1024, none⟩, 0, []⟩) :=
  ⟨rfl, (claim_c1 (fun _ => Response.timeout) ⟨some 1024, none⟩ 3 1024 rfl).1⟩

/-- Claim C2: for a transport that times out (or raises a transient network
error) on every attempt, `download_file` makes exactly 3 attempts with a
strictly increasing backoff delay between consecutive attempts (2 then 4
seconds), and returns a Failed outcome carrying the last attempt's error;
it never makes a fourth attempt. -/
theorem claim_c2 (transport : Nat → Response) (fs : FS) (force : Bool)
    (hp : proceedsToDownload force fs)
    (ht : ∀ i, transientResponse (transport i)) :
    (download_file transport fs 3 force).attempts = 3 ∧
    (download_file transport fs 3 force).success = false ∧
    (download_file transport fs 3 force).skipped = false ∧
    (download_file transport fs 3 force).error = transientErrMsg (transport 2) ∧
    (download_file transport fs 3 force).sleeps = [2, 4] ∧
    List.Chain' (fun a b => a < b) (download_file transport fs 3 force).sleeps := by
  obtain ⟨fs0, heq⟩ := download_file_proceeds transport fs 3 force hp
  rw [heq, transient_three transport fs0 ht]
  refine ⟨rfl, rfl, rfl, rfl, rfl, ?_⟩
  show List.Chain' (fun a b => a < b) ([2, 4] : List Nat)
  exact List.chain'_pair.mpr (by omega)

/-- Witness for C2 at a concrete always-timeout transport. -/
theorem claim_c2_witness :
    proceedsToDownload false ⟨none, none⟩ ∧
    (∀ i : Nat, transientResponse ((fun _ => Response.timeout) i)) ∧
    (download_file (fun _ => Response.timeout) ⟨none, none⟩ 3 false).attempts = 3 ∧
    (download_file (fun _ => Response.timeout) ⟨none, none⟩ 3 false).sleeps = [2, 4] := by
  have hp : proceedsToDownload false (⟨none, none⟩ : FS) :=
    Or.inr (fun n h => by cases h)
  have ht : ∀ i : Nat, transientResponse ((fun _ => Response.timeout) i) :=
    fun i => Or.inl rfl
  obtain ⟨h1, -, -, -, h5, -⟩ :=
    claim_c2 (fun _ => Response.timeout) ⟨none, none⟩ false hp ht
  exact ⟨hp, ht, h1, h5⟩

/-- Claim C3: permanent failures short-circuit: a first response of 404, or
of 200 with a body smaller than the 1024-byte threshold, makes
`download_file` return a Failed outcome after exactly one attempt, with no
retry and no backoff sleep. -/
theorem claim_c3 (transport : Nat → Response) (fs : FS) (force : Bool) (n : Nat)
    (hp : proceedsToDownload force fs) :
    (transport 0 = Response.http 404 n →
      (download_file transport fs 3 force).attempts = 1 ∧
      (download_file transport fs 3 force).sleeps = [] ∧
      (download_file transport fs 3 force).success = false ∧
      (download_file transport fs 3 force).error = some "404 Not Found") ∧
    (transport 0 = Response.http 200 n → n < MIN_VALID_FILE_SIZE →
      (download_file transport fs 3 force).attempts = 1 ∧
      (download_file transport fs 3 force).sleeps = [] ∧
      (download_file transport fs 3 force).success = false ∧
      (download_file transport fs 3 force).error = some "Downloaded file too small") := by
  obtain ⟨fs0, heq⟩ := download_file_proceeds transport fs 3 force hp
  constructor
  · intro h
    rw [heq]
    simp [dl_attempts, h, FS.setTemp]
  · intro h hn
    have hne : ¬ MIN_VALID_FILE_SIZE ≤ n := Nat.not_le.mpr hn
    rw [heq]
    simp [dl_attempts, h, hne, FS.setTemp]

/-- Witness for C3 at a concrete always-404 transport. -/
theorem claim_c3_witness :
    proceedsToDownload false ⟨none, none⟩ ∧
    ((fun _ => Response.http 404 0) 0 = Response.http 404 0 →
      (download_file (fun _ => Response.http 404 0) ⟨none, none⟩ 3 false).attempts = 1 ∧
      (download_file (fun _ => Response.http 404 0) ⟨none, none⟩ 3 false).sleeps = [] ∧
      (download_file (fun _ => Response.http 404 0) ⟨none, none⟩ 3 false).success = false ∧
      (download_file (fun _ => Response.http 404 0) ⟨none, none⟩ 3 false).error = some "404 Not Found") := by
  have hp : proceedsToDownload false (⟨none, none⟩ : FS) :=
    Or.inr (fun n h => by cases h)
  exact ⟨hp, (claim_c3 (fun _ => Response.http 404 0) ⟨none, none⟩ false 0 hp).1⟩

/-- Claim C10: every value returned by `download_file` has exactly one of
three shapes: `(True, True, None)` for a skip, `(True, False, None)` for a
new download, or `(False, False, e)` with a non-None error string for a
failure; skipped implies success, and the error component is `None` if and
only if success is `True`. -/
theorem claim_c10 (transport : Nat → Response) (fs : FS) (retries : Nat)
    (force : Bool) :
    (((download_file transport fs retries force).success = true ∧
        (download_file transport fs retries force).skipped = true ∧
        (download_file transport fs retries force).error = none) ∨
      ((download_file transport fs retries force).success = true ∧
        (download_file transport fs retries force).skipped = false ∧
        (download_file transport fs retries force).error = none) ∨
      ((download_file transport fs retries force).success = false ∧
        (download_file transport fs retries force).skipped = false ∧
        ∃ e, (download_file transport fs retries force).error = some e)) ∧
    ((download_file transport fs retries force).skipped = true →
      (download_file transport fs retries force).success = true) ∧
    ((download_file transport fs retries force).error = none ↔
      (download_file transport fs retries force).success = true) := by
  have main :
      ((download_file transport fs retries force).success = true ∧
        (download_file transport fs retries force).skipped = true ∧
        (download_file transport fs retries force).error = none) ∨
      ((download_file transport fs retries force).success = true ∧
        (download_file transport fs retries force).skipped = false ∧
        (download_file transport fs retries force).error = none) ∨
      ((download_file transport fs retries force).success = false ∧
        (download_file transport fs retries force).skipped = false ∧
        ∃ e, (download_file transport fs retries force).error = some e) := by
    cases force with
    | false =>
        cases hdest : fs.dest with
        | none =>
            rw [show download_file transport fs retries false =
                dl_attempts transport retries retries 0 fs 0 [] by
                  simp [download_file, hdest]]
            rcases dl_shapes transport retries retries 0 fs 0 [] with h | h
            · exact Or.inr (Or.inl h)
            · exact Or.inr (Or.inr h)
        | some size =>
            by_cases hbig : MIN_VALID_FILE_SIZE ≤ size
            · rw [show download_file transport fs retries false =
                  ⟨true, true, none, fs, 0, []⟩ by
                    simp [download_file, hdest, hbig]]
              exact Or.inl ⟨rfl, rfl, rfl⟩
            · rw [show download_file transport fs retries false =
                  dl_attempts transport retries retries 0 ⟨none, fs.temp⟩ 0 [] by
                    simp [download_file, hdest, hbig]]
              rcases dl_shapes transport retries retries 0 ⟨none, fs.temp⟩ 0 [] with h | h
              · exact Or.inr (Or.inl h)
              · exact Or.inr (Or.inr h)
    | true =>
        rw [show download_file transport fs retries true =
            dl_attempts transport retries retries 0 fs 0 [] by
              simp [download_file]]
        rcases dl_shapes transport retries retries 0 fs 0 [] with h | h
        · exact Or.inr (Or.inl h)
        · exact Or.inr (Or.inr h)
  refine ⟨main, ?_, ?_⟩
  · intro hsk
    rcases main with ⟨h, -, -⟩ | ⟨h, -, -⟩ | ⟨-, h, -⟩
    · exact h
    · exact h
    · rw [hsk] at h; cases h
  · constructor
    · intro herr
      rcases main with ⟨h, -, -⟩ | ⟨h, -, -⟩ | ⟨-, -, e, h⟩
      · exact h
      · exact h
      · rw [herr] at h; cases h
    · intro hsucc
      rcases main with ⟨-, -, h⟩ | ⟨-, -, h⟩ | ⟨h, -, -⟩
      · exact h
      · exact h
      · rw [hsucc] at h; cases h

/-- Claim C4 counterexample: the claim "no file exists at the final
destination path on every non-rename exit" is false as stated: with force
enabled and a valid 2048-byte file already at the destination, a 404
failure returns with that file still present at the destination path. -/
theorem claim_c4_counterexample :
    (download_file (fun _ => Response.http 404 0) ⟨some 2048, none⟩ 3 true).success
        = false ∧
    (download_file (fun _ => Response.http 404 0) ⟨some 2048, none⟩ 3 true).fs.dest
        = some 2048 := by decide

/-- Claim C4, amended: `download_file` streams the body only to the
temporary sibling path and the destination is written only by the final
rename; on every exit path that does not end in a successful rename
(undersized body, 404, retries exhausted, or an exception mid-transfer),
no temp file remains, and no file exists at the final destination path
except, when force is enabled, the unchanged file that was already there
before the call. -/
theorem claim_c4_amended (transport : Nat → Response) (fs : FS)
    (retries : Nat) (force : Bool) (hr : 1 ≤ retries)
    (hfail : (download_file transport fs retries force).success = false) :
    (download_file transport fs retries force).fs.temp = none ∧
    (force = false → (download_file transport fs retries force).fs.dest = none) ∧
    (force = true → (download_file transport fs retries force).fs.dest = fs.dest) := by
  have hfuel : retries ≠ 0 := by omega
  cases force with
  | false =>
      cases hdest : fs.dest with
      | none =>
          have heq : download_file transport fs retries false =
              dl_attempts transport retries retries 0 fs 0 [] := by
            simp [download_file, hdest]
          rw [heq] at hfail ⊢
          obtain ⟨-, -, -, h4⟩ := dl_inv transport retries retries 0 fs 0 []
          obtain ⟨hd, htemp⟩ := h4 hfail
          refine ⟨?_, fun _ => by rw [hd, hdest], fun hc => absurd hc (by decide)⟩
          rcases htemp with h | ⟨h0, -⟩
          · exact h
          · exact absurd h0 hfuel
      | some size =>
          by_cases hbig : MIN_VALID_FILE_SIZE ≤ size
          · rw [show download_file transport fs retries false =
                ⟨true, true, none, fs, 0, []⟩ by
                  simp [download_file, hdest, hbig]] at hfail
            cases hfail
          · have heq : download_file transport fs retries false =
                dl_attempts transport retries retries 0 ⟨none, fs.temp⟩ 0 [] := by
              simp [download_file, hdest, hbig]
            rw [heq] at hfail ⊢
            obtain ⟨-, -, -, h4⟩ := dl_inv transport retries retries 0 ⟨none, fs.temp⟩ 0 []
            obtain ⟨hd, htemp⟩ := h4 hfail
            refine ⟨?_, fun _ => hd, fun hc => absurd hc (by decide)⟩
            rcases htemp with h | ⟨h0, -⟩
            · exact h
            · exact absurd h0 hfuel
  | true =>
      have heq : download_file transport fs retries true =
          dl_attempts transport retries retries 0 fs 0 [] := by
        simp [download_file]
      rw [heq] at hfail ⊢
      obtain ⟨-, -, -, h4⟩ := dl_inv transport retries retries 0 fs 0 []
      obtain ⟨hd, htemp⟩ := h4 hfail
      refine ⟨?_, fun hc => absurd hc (by decide), fun _ => hd⟩
      rcases htemp with h | ⟨h0, -⟩
      · exact h
      · exact absurd h0 hfuel

/-- Witness for the amended C4 at a concrete failing transport with a
stale temp file initially present. -/
theorem claim_c4_amended_witness :
    (1 ≤ 3) ∧
    (download_file (fun _ => Response.timeout) ⟨none, some 77⟩ 3 false).fs.temp = none ∧
    (false = false → (download_file (fun _ => Response.timeout) ⟨none, some 77⟩ 3 false).fs.dest = none) :=
  ⟨by decide,
    (claim_c4_amended (fun _ => Response.timeout) ⟨none, some 77⟩ 3 false
      (by decide) (by decide)).1,
    (claim_c4_amended (fun _ => Response.timeout) ⟨none, some 77⟩ 3 false
      (by decide) (by decide)).2.1⟩

/-- Claim C6 fails on the code: the `download_worker` counter updates are
plain unsynchronized `+=` on shared attributes, which CPython executes as
an attribute load followed by an attribute store with possible thread
switches in between.  Serialized workers do sum to N (first conjunct), but
the interleaving load0, load1, store0, store1 of two successful workers
loses an increment (downloaded + skipped + failed = 1, not 2), and the
same interleaving for two failing workers leaves `failed = 1` while
`failed_files` has length 2. -/
theorem claim_c6 :
    (runWorkers [Outcome.downloadedNew, Outcome.downloadedNew] [0, 0, 1, 1]).downloaded = 2 ∧
    (runWorkers [Outcome.downloadedNew, Outcome.downloadedNew] [0, 1, 0, 1]).downloaded +
      (runWorkers [Outcome.downloadedNew, Outcome.downloadedNew] [0, 1, 0, 1]).skipped +
      (runWorkers [Outcome.downloadedNew, Outcome.downloadedNew] [0, 1, 0, 1]).failed = 1 ∧
    (runWorkers [Outcome.taskFailed "404 Not Found", Outcome.taskFailed "Timeout"]
        [0, 1, 0, 1, 0, 1]).failed = 1 ∧
    (runWorkers [Outcome.taskFailed "404 Not Found", Outcome.taskFailed "Timeout"]
        [0, 1, 0, 1, 0, 1]).failed_files = 2 := by decide

/-- Claim C8 counterexample: a run whose single task completes 5 seconds
after start performs no checkpoint write at all, even though the run ends
normally; only the final progress line and the manifest are written. -/
theorem claim_c8_counterexample :
    MEvent.checkpointSave ∉ orchestrate 0 [5] false ∧
    MEvent.manifestWrite ∈ orchestrate 0 [5] false := by decide

/-- Claim C8, amended: the checkpoint is serialized to disk only on the
periodic 30-second interval inside the completion loop; no checkpoint
write occurs at shutdown, where only the final progress line, the failure
report (when failures exist), and the manifest are written. -/
theorem claim_c8_amended (startTime : Nat) (ts : List Nat) (failedNonempty : Bool)
    (hmem : MEvent.checkpointSave ∈ orchestrate startTime ts failedNonempty) :
    MEvent.checkpointSave ∈ loopEvents ts 0 startTime ∧
    MEvent.checkpointSave ∉ endEvents failedNonempty ∧
    MEvent.manifestWrite ∈ orchestrate startTime ts failedNonempty := by
  have hend : MEvent.checkpointSave ∉ endEvents failedNonempty := by
    cases failedNonempty <;> decide
  refine ⟨?_, hend, ?_⟩
  · rcases List.mem_append.mp hmem with h | h
    · exact h
    · exact absurd h hend
  · refine List.mem_append.mpr (Or.inr ?_)
    cases failedNonempty <;> decide

/-- Witness for the amended C8 on a run whose checkpoint interval fires
once. -/
theorem claim_c8_amended_witness :
    MEvent.checkpointSave ∈ orchestrate 0 [31] false ∧
    MEvent.checkpointSave ∈ loopEvents [31] 0 0 ∧
    MEvent.checkpointSave ∉ endEvents false :=
  ⟨by decide, (claim_c8_amended 0 [31] false (by decide)).1,
    (claim_c8_amended 0 [31] false (by decide)).2.1⟩

/-- Claim C9: every run that reaches the download phase (not listing, with
an output directory, a non-empty reciter selection, not a dry run, and a
confirmed prompt) exits 0 exactly when `stats.failed == 0`, and exits
nonzero exactly when at least one task had a Failed outcome. -/
theorem claim_c9 (args : Args) (confirm : Bool) (outcomes : List Outcome) (o : String)
    (h1 : args.list_reciters = false) (h2 : args.output = some o)
    (h3 : ∀ keys, args.reciters_filter = some keys →
      RECITERS.filter (fun r => keys.contains r.folder) ≠ [])
    (h4 : args.dry_run = false) (h5 : confirm = true) :
    (mainExit args confirm outcomes = 0 ↔ failedCount outcomes = 0) ∧
    (mainExit args confirm outcomes ≠ 0 ↔ ∃ e, Outcome.taskFailed e ∈ outcomes) := by
  have hrun : mainExit args confirm outcomes =
      if failedCount outcomes = 0 then 0 else 1 := by
    cases hrf : args.reciters_filter with
    | none => simp [mainExit, mainAfterFilter, h1, h2, h4, h5, hrf]
    | some keys =>
        cases hfil : RECITERS.filter (fun r => keys.contains r.folder) with
        | nil => exact absurd hfil (h3 keys hrf)
        | cons a l =>
            simp only [mainExit, mainAfterFilter, h1, h2, h4, h5, hrf, hfil]
            simp
  have hpos : failedCount outcomes ≠ 0 ↔ ∃ e, Outcome.taskFailed e ∈ outcomes := by
    constructor
    · intro h
      obtain ⟨a, ha, hpa⟩ := List.countP_pos_iff.mp (Nat.pos_of_ne_zero h)
      cases a with
      | taskFailed e => exact ⟨e, ha⟩
      | downloadedNew => cases hpa
      | alreadyPresent => cases hpa
    · rintro ⟨e, he⟩
      exact Nat.pos_iff_ne_zero.mp (List.countP_pos_iff.mpr ⟨Outcome.taskFailed e, he, rfl⟩)
  constructor
  · rw [hrun]
    by_cases hfc : failedCount outcomes = 0 <;> simp [hfc]
  · rw [hrun]
    by_cases hfc : failedCount outcomes = 0
    · rw [if_pos hfc]
      simp only [ne_eq, not_true_eq_false, false_iff]
      rw [← hpos]
      simp [hfc]
    · rw [if_neg hfc]
      simp only [ne_eq, one_ne_zero, not_false_eq_true, true_iff]
      exact hpos.mp hfc

/-- Witness for C9 on a concrete run with one failed task. -/
theorem claim_c9_witness :
    ((⟨false, some "out", none, false, false⟩ : Args).list_reciters = false) ∧
    (mainExit ⟨false, some "out", none, false, false⟩ true [Outcome.taskFailed "404 Not Found"] ≠ 0 ↔
      ∃ e, Outcome.taskFailed e ∈ [Outcome.taskFailed "404 Not Found"]) :=
  ⟨rfl,
    (claim_c9 ⟨false, some "out", none, false, false⟩ true
      [Outcome.taskFailed "404 Not Found"] "out" rfl rfl
      (fun _ h => Option.noConfusion h) rfl rfl).2⟩

/-- Appending folds factor through `flatMap`. -/
theorem foldl_app {α β : Type} (g : α → List β) :
    ∀ (l : List α) (init : List β),
      l.foldl (fun acc x => acc ++ g x) init = init ++ l.flatMap g := by
  intro l
  induction l with
  | nil => intro init; simp
  | cons x xs ih =>
      intro init
      simp only [List.foldl_cons, List.flatMap_cons, ih, List.append_assoc]

/-- A `flatMap` of singletons is a `map`. -/
theorem flatMap_singleton_eq_map {α β : Type} (f : α → β) (l : List α) :
    l.flatMap (fun x => [f x]) = l.map f := by
  induction l with
  | nil => rfl
  | cons x xs ih => simp only [List.flatMap_cons, List.map_cons, ih]; rfl

/-- The innermost ayah loop appends one task per ayah of the surah. -/
theorem inner_fold_eq (d : String) (r : Reciter) (s : Nat) (init : List DownloadTask) :
    (List.range' 1 (SURAH_AYAH_COUNTS.getD (s - 1) 0)).foldl
      (fun tasks a => tasks ++ [mkTask d r s a]) init
    = init ++ (List.range' 1 (SURAH_AYAH_COUNTS.getD (s - 1) 0)).map (mkTask d r s) := by
  rw [foldl_app (fun a => [mkTask d r s a]), flatMap_singleton_eq_map]

/-- The surah loop appends the whole per-reciter block in order. -/
theorem middle_fold_eq (d : String) (r : Reciter) (init : List DownloadTask) :
    (List.range' 1 114).foldl
      (fun tasks s => (List.range' 1 (SURAH_AYAH_COUNTS.getD (s - 1) 0)).foldl
        (fun tasks a => tasks ++ [mkTask d r s a]) tasks) init
    = init ++ surahAyahPairs.map (fun p => mkTask d r p.1 p.2) := by
  have hstep : (fun (tasks : List DownloadTask) s =>
        (List.range' 1 (SURAH_AYAH_COUNTS.getD (s - 1) 0)).foldl
          (fun tasks a => tasks ++ [mkTask d r s a]) tasks)
      = fun tasks s => tasks ++
          (List.range' 1 (SURAH_AYAH_COUNTS.getD (s - 1) 0)).map (mkTask d r s) := by
    funext tasks s
    exact inner_fold_eq d r s tasks
  have hmap : surahAyahPairs.map (fun p => mkTask d r p.1 p.2)
      = (List.range' 1 114).flatMap
          (fun s => (List.range' 1 (SURAH_AYAH_COUNTS.getD (s - 1) 0)).map (mkTask d r s)) := by
    unfold surahAyahPairs
    rw [List.map_flatMap]
    simp only [List.map_map]
    rfl
  rw [hstep, foldl_app, hmap]

/-- The nested loops of `generate_download_tasks` produce exactly one task
per (reciter, surah, ayah) triple, in reciter order, then surah order,
then ayah order. -/
theorem generate_download_tasks_eq (rs : List Reciter) (d : String) :
    generate_download_tasks rs d =
      rs.flatMap (fun r => surahAyahPairs.map (fun p => mkTask d r p.1 p.2)) := by
  unfold generate_download_tasks
  have hstep : (fun (tasks : List DownloadTask) reciter =>
        (List.range' 1 114).foldl
          (fun tasks s => (List.range' 1 (SURAH_AYAH_COUNTS.getD (s - 1) 0)).foldl
            (fun tasks a => tasks ++ [mkTask d reciter s a]) tasks) tasks)
      = fun tasks reciter => tasks ++
          surahAyahPairs.map (fun p => mkTask d reciter p.1 p.2) := by
    funext tasks reciter
    exact middle_fold_eq d reciter tasks
  rw [hstep, foldl_app]
  rfl

/-- Length of a `flatMap` of equal-length maps. -/
theorem flatMap_map_length {α β γ : Type} (rs : List α) (L : List β) (g : α → β → γ) :
    (rs.flatMap (fun r => L.map (g r))).length = rs.length * L.length := by
  induction rs with
  | nil => simp
  | cons r rest ih =>
      simp only [List.flatMap_cons, List.length_append, List.length_map, ih,
        List.length_cons]
      ring

/-- The enumeration has one pair per ayah: 6236 in total. -/
theorem surahAyahPairs_length : surahAyahPairs.length = 6236 := by
  unfold surahAyahPairs
  rw [List.length_flatMap]
  decide

/-- The (surah, ayah) enumeration is strictly increasing in lexicographic
order. -/
theorem surahAyahPairs_pairwise :
    surahAyahPairs.Pairwise
      (fun p q : Nat × Nat => p.1 < q.1 ∨ (p.1 = q.1 ∧ p.2 < q.2)) := by
  show (((List.range' 1 114).map
      (fun s => (List.range' 1 (SURAH_AYAH_COUNTS.getD (s - 1) 0)).map
        (fun a => (s, a)))).flatten).Pairwise _
  rw [List.pairwise_flatten]
  constructor
  · intro l hl
    rw [List.mem_map] at hl
    obtain ⟨t, ht, rfl⟩ := hl
    rw [List.pairwise_map]
    refine (List.pairwise_lt_range' 1 _).imp ?_
    intro a b hab
    exact Or.inr ⟨rfl, hab⟩
  · rw [List.pairwise_map]
    refine (List.pairwise_lt_range' 1 114).imp ?_
    intro u v huv x hx y hy
    rw [List.mem_map] at hx hy
    obtain ⟨a, -, rfl⟩ := hx
    obtain ⟨b, -, rfl⟩ := hy
    exact Or.inl huv

/-- The (surah, ayah) enumeration has no duplicates. -/
theorem surahAyahPairs_nodup : surahAyahPairs.Nodup :=
  surahAyahPairs_pairwise.imp (by
    intro p q h heq
    subst heq
    rcases h with h | ⟨-, h⟩ <;> omega)

/-- Claim C5: `generate_download_tasks` is deterministic (it is a pure
function, so two calls on the same inputs are equal), produces exactly one
task per (reciter, surah, ayah) triple in reciter order then surah order
1..114 then ayah order 1..count (the `flatMap` form over the ordered
enumeration `surahAyahPairs`, which is strictly lexicographically
increasing), and the total task count is `len(reciters)` times the sum
6236 of `SURAH_AYAH_COUNTS`. -/
theorem claim_c5 (rs : List Reciter) (d : String) :
    generate_download_tasks rs d = generate_download_tasks rs d ∧
    generate_download_tasks rs d =
      rs.flatMap (fun r => surahAyahPairs.map (fun p => mkTask d r p.1 p.2)) ∧
    SURAH_AYAH_COUNTS.sum = 6236 ∧
    surahAyahPairs.length = 6236 ∧
    (generate_download_tasks rs d).length = rs.length * 6236 ∧
    surahAyahPairs.Pairwise
      (fun p q : Nat × Nat => p.1 < q.1 ∨ (p.1 = q.1 ∧ p.2 < q.2)) := by
  refine ⟨rfl, generate_download_tasks_eq rs d, by decide, surahAyahPairs_length, ?_,
    surahAyahPairs_pairwise⟩
  rw [generate_download_tasks_eq rs d, flatMap_map_length, surahAyahPairs_length]

/-- One-digit unfolding of the decimal printer. -/
theorem natStrAux_lt10 (n : Nat) (h : n < 10) (acc : List Char) :
    natStrAux n acc = dchar n :: acc := by
  unfold natStrAux
  simp [h]

/-- Recursive unfolding of the decimal printer. -/
theorem natStrAux_ge10 (n : Nat) (h : ¬ n < 10) (acc : List Char) :
    natStrAux n acc = natStrAux (n / 10) (dchar (n % 10) :: acc) := by
  rw [natStrAux]
  simp [h]

/-- For `n < 1000`, `str(n).zfill(3)` is exactly the three decimal digits
of `n`. -/
theorem zfill3_natStr_data (n : Nat) (h : n < 1000) :
    (zfill 3 (natStr n)).data = [dchar (n / 100), dchar (n / 10 % 10), dchar (n % 10)] := by
  have hd0 : dchar 0 = '0' := by decide
  by_cases h1 : n < 10
  · have e1 : n / 100 = 0 := by omega
    have e2 : n / 10 % 10 = 0 := by omega
    have e3 : n % 10 = n := by omega
    rw [e1, e2, e3, hd0]
    show (zfill 3 ⟨natStrAux n []⟩).data = _
    rw [natStrAux_lt10 n h1]
    show List.replicate (3 - 1) '0' ++ [dchar n] = ['0', '0', dchar n]
    rfl
  · by_cases h2 : n < 100
    · have e1 : n / 100 = 0 := by omega
      have e2 : n / 10 % 10 = n / 10 := by omega
      rw [e1, e2, hd0]
      show (zfill 3 ⟨natStrAux n []⟩).data = _
      rw [natStrAux_ge10 n h1, natStrAux_lt10 (n / 10) (by omega)]
      show List.replicate (3 - 2) '0' ++ [dchar (n / 10), dchar (n % 10)]
          = ['0', dchar (n / 10), dchar (n % 10)]
      rfl
    · have e1 : n / 10 / 10 = n / 100 := by
        rw [Nat.div_div_eq_div_mul]
      show (zfill 3 ⟨natStrAux n []⟩).data = _
      rw [natStrAux_ge10 n h1, natStrAux_ge10 (n / 10) (by omega),
        natStrAux_lt10 (n / 10 / 10) (by omega), e1]
      show List.replicate (3 - 3) '0' ++ [dchar (n / 100), dchar (n / 10 % 10), dchar (n % 10)]
          = [dchar (n / 100), dchar (n / 10 % 10), dchar (n % 10)]
      rfl

/-- For `n < 1000`, `str(n).zfill(3)` has exactly 3 characters. -/
theorem zfill3_natStr_length (n : Nat) (h : n < 1000) :
    (zfill 3 (natStr n)).data.length = 3 := by
  rw [zfill3_natStr_data n h]
  rfl

/-- Digit characters of distinct digits are distinct (checked on `Fin 10`). -/
theorem dchar_inj_fin : ∀ a b : Fin 10, dchar a.val = dchar b.val → a = b := by decide

/-- Digit characters of distinct digits below 10 are distinct. -/
theorem dchar_inj (a b : Nat) (ha : a < 10) (hb : b < 10) (h : dchar a = dchar b) :
    a = b :=
  congrArg Fin.val (dchar_inj_fin ⟨a, ha⟩ ⟨b, hb⟩ h)

/-- Zero-padded 3-digit encodings are injective below 1000. -/
theorem zfill3_natStr_inj (n m : Nat) (hn : n < 1000) (hm : m < 1000)
    (h : (zfill 3 (natStr n)).data = (zfill 3 (natStr m)).data) : n = m := by
  rw [zfill3_natStr_data n hn, zfill3_natStr_data m hm] at h
  injection h with h1 h
  injection h with h2 h
  injection h with h3 h
  have e1 := dchar_inj _ _ (by omega) (by omega) h1
  have e2 := dchar_inj _ _ (by omega) (by omega) h2
  have e3 := dchar_inj _ _ (by omega) (by omega) h3
  omega

/-- Character decomposition of the canonical filename. -/
theorem ayahFilename_data (s a : Nat) :
    (ayahFilename s a).data =
      ((zfill 3 (natStr s)).data ++ (zfill 3 (natStr a)).data) ++ ['.', 'm', 'p', '3'] := by
  show (zfill 3 (natStr s) ++ zfill 3 (natStr a) ++ ".mp3").data = _
  rw [String.data_append, String.data_append]

/-- Every canonical filename has exactly 10 characters. -/
theorem ayahFilename_length (s a : Nat) (hs : s < 1000) (ha : a < 1000) :
    (ayahFilename s a).data.length = 10 := by
  rw [ayahFilename_data, List.length_append, List.length_append,
    zfill3_natStr_length s hs, zfill3_natStr_length a ha]
  rfl

/-- Canonical filenames are injective in (surah, ayah) below 1000. -/
theorem ayahFilename_inj (s a u v : Nat) (hs : s < 1000) (ha : a < 1000)
    (hu : u < 1000) (hv : v < 1000)
    (h : (ayahFilename s a).data = (ayahFilename u v).data) : s = u ∧ a = v := by
  rw [ayahFilename_data, ayahFilename_data] at h
  obtain ⟨hAB, -⟩ := List.append_inj' h rfl
  obtain ⟨hA, hB⟩ := List.append_inj hAB
    (by rw [zfill3_natStr_length s hs, zfill3_natStr_length u hu])
  exact ⟨zfill3_natStr_inj s u hs hu hA, zfill3_natStr_inj a v ha hv hB⟩

/-- Character decomposition of a task's destination path. -/
theorem mkTask_output_data (d : String) (r : Reciter) (s a : Nat) :
    (mkTask d r s a).output_path.data =
      (((d.data ++ ['/']) ++ r.folder.data) ++ ['/']) ++ (ayahFilename s a).data := by
  show (d ++ "/" ++ r.folder ++ "/" ++ ayahFilename s a).data = _
  rw [String.data_append, String.data_append, String.data_append, String.data_append]

/-- Destination paths of one reciter are injective in the (surah, ayah)
pair. -/
theorem mkTask_path_inj (d : String) (r : Reciter) (p q : Nat × Nat)
    (hp1 : p.1 < 1000) (hp2 : p.2 < 1000) (hq1 : q.1 < 1000) (hq2 : q.2 < 1000)
    (h : (mkTask d r p.1 p.2).output_path = (mkTask d r q.1 q.2).output_path) :
    p = q := by
  have hd := congrArg String.data h
  rw [mkTask_output_data, mkTask_output_data] at hd
  have h2 := List.append_cancel_left hd
  obtain ⟨e1, e2⟩ := ayahFilename_inj p.1 p.2 q.1 q.2 hp1 hp2 hq1 hq2 h2
  exact Prod.ext e1 e2

/-- Equal destination paths force equal reciter folders (the filename part
has fixed length 10, so the folder prefixes must coincide). -/
theorem mkTask_path_folder_eq (d : String) (r1 r2 : Reciter) (p q : Nat × Nat)
    (hp1 : p.1 < 1000) (hp2 : p.2 < 1000) (hq1 : q.1 < 1000) (hq2 : q.2 < 1000)
    (h : (mkTask d r1 p.1 p.2).output_path = (mkTask d r2 q.1 q.2).output_path) :
    r1.folder = r2.folder := by
  have hd := congrArg String.data h
  rw [mkTask_output_data, mkTask_output_data] at hd
  obtain ⟨hpre, -⟩ := List.append_inj' hd
    (by rw [ayahFilename_length p.1 p.2 hp1 hp2, ayahFilename_length q.1 q.2 hq1 hq2])
  obtain ⟨hpre2, -⟩ := List.append_inj' hpre rfl
  exact String.ext (List.append_cancel_left hpre2)

/-- The 44 folders of the static reciter table are pairwise distinct. -/
theorem RECITERS_folders_nodup : (RECITERS.map Reciter.folder).Nodup := by decide

/-- Every surah ayah count is at most 286. -/
theorem counts_le : ∀ k, SURAH_AYAH_COUNTS.getD k 0 ≤ 286 := by
  intro k
  by_cases hk : k < 114
  · exact (show ∀ j : Fin 114, SURAH_AYAH_COUNTS.getD j.val 0 ≤ 286 by decide) ⟨k, hk⟩
  · rw [List.getD_eq_default]
    · omega
    · show SURAH_AYAH_COUNTS.length ≤ k
      have hlen : SURAH_AYAH_COUNTS.length = 114 := by decide
      omega

/-- Every enumerated surah and ayah number is below 1000. -/
theorem surahAyahPairs_bounds :
    ∀ p ∈ surahAyahPairs, p.1 < 1000 ∧ p.2 < 1000 := by
  intro p hp
  unfold surahAyahPairs at hp
  rw [List.mem_flatMap] at hp
  obtain ⟨s, hs, hp⟩ := hp
  rw [List.mem_map] at hp
  obtain ⟨a, ha, rfl⟩ := hp
  rw [List.mem_range'] at hs ha
  obtain ⟨i, hi, rfl⟩ := hs
  obtain ⟨j, hj, rfl⟩ := ha
  have hc := counts_le (1 + 1 * i - 1)
  constructor
  · omega
  · omega

/-- Claim C7: for every task catalog generated from the static reciter
table or any sublist of it (as produced by the `--reciters` filter), the
destination paths of the tasks are pairwise distinct across the whole
catalog. -/
theorem claim_c7 (d : String) (rs : List Reciter) (hs : rs.Sublist RECITERS) :
    ((generate_download_tasks rs d).map DownloadTask.output_path).Nodup := by
  rw [generate_download_tasks_eq, List.map_flatMap]
  rw [List.nodup_flatMap]
  constructor
  · intro r hr
    rw [List.map_map]
    refine List.Nodup.map_on ?_ surahAyahPairs_nodup
    intro p hp q hq hpq
    obtain ⟨hp1, hp2⟩ := surahAyahPairs_bounds p hp
    obtain ⟨hq1, hq2⟩ := surahAyahPairs_bounds q hq
    exact mkTask_path_inj d r p q hp1 hp2 hq1 hq2 hpq
  · have hfolders : (rs.map Reciter.folder).Nodup :=
      RECITERS_folders_nodup.sublist (hs.map Reciter.folder)
    have hpw : rs.Pairwise (fun r1 r2 => r1.folder ≠ r2.folder) := by
      have h' : (rs.map Reciter.folder).Pairwise (fun a b => a ≠ b) := hfolders
      exact List.pairwise_map.mp h'
    refine hpw.imp ?_
    intro r1 r2 hne
    intro x hx hy
    simp only [List.map_map, List.mem_map] at hx hy
    obtain ⟨p, hp, hxp⟩ := hx
    obtain ⟨q, hq, hyq⟩ := hy
    apply hne
    obtain ⟨hp1, hp2⟩ := surahAyahPairs_bounds p hp
    obtain ⟨hq1, hq2⟩ := surahAyahPairs_bounds q hq
    exact mkTask_path_folder_eq d r1 r2 p q hp1 hp2 hq1 hq2 (hxp.trans hyq.symm)

/-- Witness for C7 on the catalog of the filtered single-reciter subset. -/
theorem claim_c7_witness :
    (RECITERS.filter (fun r => r.folder == "Husary_128kbps")).Sublist RECITERS ∧
    ((generate_download_tasks
        (RECITERS.filter (fun r => r.folder == "Husary_128kbps")) "out").map
      DownloadTask.output_path).Nodup :=
  ⟨List.filter_sublist RECITERS,
    claim_c7 "out" (RECITERS.filter (fun r => r.folder == "Husary_128kbps"))
      (List.filter_sublist RECITERS)⟩
